import Mathlib

/-!
Shallow embedding of the TV-locker backend (Go, `main.go` and the serverless
handler variant shipped alongside the SQL schema).  Dates are modelled as
rata-die day counts (`Int`); `time.AddDate(0, 0, n)` on a date-only value is
day-count addition.  The civil-calendar conversions mirror the standard
days-from-civil / civil-from-days algorithms used by Go's `time` package for
date arithmetic and `Format("2006-01-02")`.
-/

namespace TVLocker

/-- Proleptic-Gregorian leap-year test. -/
def isLeap (y : Int) : Bool :=
  y % 4 == 0 && (y % 100 != 0 || y % 400 == 0)

/-- Number of days in a given month of a given year. -/
def daysInMonth (y : Int) (m : Nat) : Nat :=
  if m = 2 then (if isLeap y then 29 else 28)
  else if m = 4 ∨ m = 6 ∨ m = 9 ∨ m = 11 then 30
  else 31

/-- Rata-die day count (days since 1970-01-01) of a civil date. -/
def daysFromCivil (y : Int) (m d : Nat) : Int :=
  let y1 : Int := if m ≤ 2 then y - 1 else y
  let era : Int := Int.fdiv y1 400
  let yoe : Int := y1 - era * 400
  let mp : Int := if m > 2 then (m : Int) - 3 else (m : Int) + 9
  let doy : Int := (153 * mp + 2) / 5 + (d : Int) - 1
  let doe : Int := yoe * 365 + yoe / 4 - yoe / 100 + doy
  era * 146097 + doe - 719468

/-- A civil calendar date (year, month, day). -/
structure CivilDate where
  year : Int
  month : Int
  day : Int
deriving DecidableEq, Repr

/-- Civil date of a rata-die day count (inverse of `daysFromCivil`). -/
def civilFromDays (z0 : Int) : CivilDate :=
  let z := z0 + 719468
  let era := Int.fdiv z 146097
  let doe := z - era * 146097
  let yoe := (doe - doe / 1460 + doe / 36524 - doe / 146096) / 365
  let y := yoe + era * 400
  let doy := doe - (365 * yoe + yoe / 4 - yoe / 100)
  let mp := (5 * doy + 2) / 153
  let d := doy - (153 * mp + 2) / 5 + 1
  let m := if mp < 10 then mp + 3 else mp - 9
  ⟨if m ≤ 2 then y + 1 else y, m, d⟩

/-- Numeric value of a decimal digit character. -/
def digitVal (c : Char) : Nat := c.toNat - 48

/-- Parse a `YYYY-MM-DD` string into a day count, mirroring
`time.Parse("2006-01-02", s)`: fixed-width zero-padded fields and
calendar-range validation; any other shape fails. -/
def parseDate (s : String) : Option Int :=
  match s.toList with
  | [y1, y2, y3, y4, h1, m1, m2, h2, d1, d2] =>
    if h1 == Char.ofNat 45 && h2 == Char.ofNat 45 &&
        y1.isDigit && y2.isDigit && y3.isDigit && y4.isDigit &&
        m1.isDigit && m2.isDigit && d1.isDigit && d2.isDigit then
      let y : Int := ((digitVal y1) * 1000 + (digitVal y2) * 100 +
        (digitVal y3) * 10 + digitVal y4 : Nat)
      let mo := (digitVal m1) * 10 + digitVal m2
      let da := (digitVal d1) * 10 + digitVal d2
      if 1 ≤ mo && mo ≤ 12 && 1 ≤ da && da ≤ daysInMonth y mo then
        some (daysFromCivil y mo da)
      else none
    else none
  | _ => none

/-- Left-pad a number to two digits. -/
def pad2 (n : Nat) : String := if n < 10 then "0" ++ toString n else toString n

/-- Left-pad a number to four digits. -/
def pad4 (n : Nat) : String :=
  if n < 10 then "000" ++ toString n
  else if n < 100 then "00" ++ toString n
  else if n < 1000 then "0" ++ toString n
  else toString n

/-- Render a day count as `YYYY-MM-DD`, mirroring `Format("2006-01-02")`. -/
def formatDate (z : Int) : String :=
  let c := civilFromDays z
  pad4 c.year.toNat ++ "-" ++ pad2 c.month.toNat ++ "-" ++ pad2 c.day.toNat

/-- Loop body of `calculateLockDates`: starting from `currentDate`, produce
the next `n` cumulative lock dates, each `termDuration` days after the
previous one. -/
def calculateLockDatesAux (currentDate termDuration : Int) : Nat → List Int
  | 0 => []
  | Nat.succ k =>
    let lockDate := currentDate + termDuration
    lockDate :: calculateLockDatesAux lockDate termDuration k

/-- Embedding of `calculateLockDates(startDate, termDuration, emiTerm)`:
the Go loop runs `emiTerm` times (not at all when `emiTerm ≤ 0`). -/
def calculateLockDates (startDate termDuration emiTerm : Int) : List Int :=
  calculateLockDatesAux startDate termDuration emiTerm.toNat

/-- Row of the `devices` table.  Row ids (uuids in the source) are modelled
as naturals drawn from the store's fresh-id supply; `created_at` timestamps
carry no behaviour and are omitted. -/
structure Device where
  id : Nat
  serialNumber : String
  customerName : String
  phoneNumber : String
  emiTerm : Int
  emiStartDate : Int
  termDuration : Int
  isActive : Bool
  isLocked : Bool
deriving DecidableEq, Repr

/-- Row of the `activation_codes` table (`used_at` timestamp omitted). -/
structure ActivationCode where
  id : Nat
  deviceId : Nat
  code : String
  termNumber : Int
  isUsed : Bool
deriving DecidableEq, Repr

/-- Row of the `lock_dates` table. -/
structure LockDate where
  id : Nat
  deviceId : Nat
  lockDate : Int
  isLocked : Bool
deriving DecidableEq, Repr

/-- Row of the `remote_locks` table (timestamps omitted). -/
structure RemoteLock where
  id : Nat
  deviceId : Nat
  isLocked : Bool
deriving DecidableEq, Repr

/-- The relational store: the four tables plus a fresh-id counter that
models the uuid generator (fresh values never collide with existing ones;
an `INSERT` appends a row). -/
structure Store where
  devices : List Device
  activationCodes : List ActivationCode
  lockDates : List LockDate
  remoteLocks : List RemoteLock
  nextId : Nat
deriving DecidableEq, Repr

/-- The empty database. -/
def emptyStore : Store := ⟨[], [], [], [], 0⟩

/-- Body of a `POST /api/register` request. -/
structure RegisterDeviceRequest where
  serialNumber : String
  customerName : String
  phoneNumber : String
  emiTerm : Int
  emiStartDate : String
  termDuration : Int
deriving DecidableEq, Repr

/-- One entry of the `terms` array in registration / activation / check
responses (the serverless handler includes the activation code in all
three). -/
structure TermWithLockDateAndCode where
  term : Int
  lockDate : String
  activationCode : String
deriving DecidableEq, Repr

/-- Error responses, tagged by the HTTP status the handlers use: 400, 409,
404, 403, 500. -/
inductive ApiError where
  | invalidArgument (msg : String)
  | conflict (msg : String)
  | notFound (msg : String)
  | forbidden (msg : String)
  | internalError (msg : String)
deriving DecidableEq, Repr

/-- Success payload of `POST /api/register`. -/
structure RegisterOk where
  deviceId : Nat
  terms : List TermWithLockDateAndCode
deriving DecidableEq, Repr

/-- Whether a request result is a success response. -/
def resultIsOk {α : Type} : Except ApiError α → Bool
  | Except.ok _ => true
  | Except.error _ => false

/-- Embedding of `generateActivationCode` (`uuid.New().String()[:8]` in the
source): the uuid randomness is modelled by the fresh-id supply, so distinct
draws yield distinct codes. -/
def generateActivationCode (n : Nat) : String := "AC" ++ Nat.repr n

/-- The first `devices` row matching a serial number
(`SELECT ... FROM devices WHERE serial_number = $1`). -/
def findDeviceBySerial (s : Store) (serial : String) : Option Device :=
  s.devices.find? (fun d => d.serialNumber == serial)

/-- The first unused `activation_codes` row with the given code
(`SELECT ... WHERE code = $1 AND is_used = false`). -/
def findUnusedCode (s : Store) (code : String) : Option ActivationCode :=
  s.activationCodes.find? (fun a => a.code == code && a.isUsed == false)

/-- The first `remote_locks` row of a device
(`SELECT is_locked FROM remote_locks WHERE device_id = $1`). -/
def findRemoteLock (s : Store) (deviceId : Nat) : Option RemoteLock :=
  s.remoteLocks.find? (fun rl => rl.deviceId == deviceId)

/-- The `activation_codes` rows of a device
(`WHERE device_id = $1`). -/
def deviceCodes (s : Store) (deviceId : Nat) : List ActivationCode :=
  s.activationCodes.filter (fun a => a.deviceId == deviceId)

/-- The `lock_dates` rows of a device (`WHERE device_id = $1`). -/
def deviceLockDates (s : Store) (deviceId : Nat) : List LockDate :=
  s.lockDates.filter (fun r => r.deviceId == deviceId)

/-- The handler's `codesByTerm` map lookup: the last inserted code for a
term number wins (Go map overwrite), empty string when absent (Go zero
value). -/
def codeForTerm (codes : List ActivationCode) (t : Int) : String :=
  match codes.reverse.find? (fun a => a.termNumber == t) with
  | some a => a.code
  | none => ""

/-- The handler's sorted key list of `codesByTerm`: the distinct term
numbers of the device's codes in ascending order (the source bubble-sorts
the map's key set; any sort of a duplicate-free set yields this list). -/
def termNumbersSorted (codes : List ActivationCode) : List Int :=
  List.insertionSort (fun a b => a ≤ b) ((codes.map (fun a => a.termNumber)).dedup)

/-- The device's lock dates in ascending order
(`SELECT lock_date ... ORDER BY lock_date`). -/
def lockDatesSorted (rows : List LockDate) : List Int :=
  List.insertionSort (fun a b => a ≤ b) (rows.map (fun r => r.lockDate))

/-- The serverless handler's terms-assembly loop, shared verbatim by
`activateDevice` and `checkActivation`: walk the lock dates in date order,
pairing the i-th date with the i-th smallest term number and that term's
activation code; surplus dates (when there are more dates than distinct
terms) are dropped by the `termIndex < len(termNumbers)` guard, and surplus
terms are dropped when the dates run out. -/
def assembleTerms (s : Store) (deviceId : Nat) : List TermWithLockDateAndCode :=
  let codes := deviceCodes s deviceId
  let termNumbers := termNumbersSorted codes
  let dates := lockDatesSorted (deviceLockDates s deviceId)
  (dates.zip termNumbers).map
    (fun p => ⟨p.2, formatDate p.1, codeForTerm codes p.2⟩)

/-- Failure oracle for `registerDevice`: which of its `db.Exec` calls fail.
`codeInsert i` / `lockDateInsert i` refer to the loop iteration for term
`i`.  A failing call leaves the store unchanged (the statement does not
commit); the handler's reaction to each failure is encoded in
`registerDeviceF` exactly as in the source. -/
structure RegisterFailures where
  deviceInsert : Bool
  codeInsert : Int → Bool
  lockDateInsert : Int → Bool
  remoteLockInsert : Bool

/-- The oracle under which every store call succeeds. -/
def noRegisterFailures : RegisterFailures :=
  ⟨false, fun _ => false, fun _ => false, false⟩

/-- The `for i := 1; i <= req.EMITerm; i++` loop of `registerDevice`:
generate a code, insert the `activation_codes` row, insert the
`lock_dates` row (`lockDates[i-1]`), and accumulate the response entry.
`fuel` is the number of remaining iterations and `i` the current term
number.  An insert failure returns the 500 error the handler sends; an
out-of-range index (impossible when `lockDates` has one entry per term)
would panic in Go and be converted to a 500 by the recovery middleware. -/
def registerLoop (f : RegisterFailures) (deviceId : Nat) (lockDates : List Int) :
    Nat → Int → Store → List TermWithLockDateAndCode →
    Store × List TermWithLockDateAndCode × Option ApiError
  | 0, _, s, acc => (s, acc, none)
  | Nat.succ fuel, i, s, acc =>
    let code := generateActivationCode s.nextId
    if f.codeInsert i then
      (s, acc, some (ApiError.internalError "Failed to generate activation codes"))
    else
      let s1 : Store := { s with
        activationCodes :=
          s.activationCodes ++ [⟨s.nextId + 1, deviceId, code, i, false⟩],
        nextId := s.nextId + 2 }
      match lockDates[(i - 1).toNat]? with
      | none => (s1, acc, some (ApiError.internalError "index out of range"))
      | some lockDate =>
        if f.lockDateInsert i then
          (s1, acc, some (ApiError.internalError "Failed to generate lock dates"))
        else
          let s2 : Store := { s1 with
            lockDates := s1.lockDates ++ [⟨s1.nextId, deviceId, lockDate, false⟩],
            nextId := s1.nextId + 1 }
          registerLoop f deviceId lockDates fuel (i + 1) s2
            (acc ++ [⟨i, formatDate lockDate, code⟩])

/-- Embedding of `registerDevice` (identical in `main.go` and the
serverless handler), with a failure oracle for its store writes.  Note the
final `remote_locks` insert: on failure the handler only logs
(`log.Printf`) and still sends the success response. -/
def registerDeviceF (f : RegisterFailures) (req : RegisterDeviceRequest)
    (s : Store) : Store × Except ApiError RegisterOk :=
  if req.termDuration ≠ 7 ∧ req.termDuration ≠ 15 ∧ req.termDuration ≠ 30 then
    (s, Except.error (ApiError.invalidArgument "Term duration must be 7, 15, or 30 days"))
  else
    match parseDate req.emiStartDate with
    | none => (s, Except.error (ApiError.invalidArgument "Invalid date format. Use YYYY-MM-DD"))
    | some emiStartDate =>
      match findDeviceBySerial s req.serialNumber with
      | some _ =>
        (s, Except.error (ApiError.conflict "Device with this serial number already exists"))
      | none =>
        if f.deviceInsert then
          (s, Except.error (ApiError.internalError "Failed to register device"))
        else
          let deviceId := s.nextId
          let s1 : Store := { s with
            devices := s.devices ++
              [⟨deviceId, req.serialNumber, req.customerName, req.phoneNumber,
                req.emiTerm, emiStartDate, req.termDuration, false, false⟩],
            nextId := s.nextId + 1 }
          let lockDates := calculateLockDates emiStartDate req.termDuration req.emiTerm
          match registerLoop f deviceId lockDates req.emiTerm.toNat 1 s1 [] with
          | (s2, _, some e) => (s2, Except.error e)
          | (s2, terms, none) =>
            let s3 : Store :=
              if f.remoteLockInsert then s2
              else { s2 with
                remoteLocks := s2.remoteLocks ++ [⟨s2.nextId, deviceId, false⟩],
                nextId := s2.nextId + 1 }
            (s3, Except.ok ⟨deviceId, terms⟩)

/-- The registration handler with no store failures. -/
def registerDevice (req : RegisterDeviceRequest) (s : Store) :
    Store × Except ApiError RegisterOk :=
  registerDeviceF noRegisterFailures req s

/-- Failure oracle for `activateDevice`: the mark-used `UPDATE` and the
device-activation `UPDATE`. -/
structure ActivateFailures where
  markUsed : Bool
  deviceUpdate : Bool
deriving DecidableEq, Repr

/-- The oracle under which every store call succeeds. -/
def noActivateFailures : ActivateFailures := ⟨false, false⟩

/-- Embedding of the serverless handler's `activateDevice`: look up the
unused code (400 when absent), mark it used (500 on failure), set the
owning device active (failure only logged), then assemble the terms
response.  The legacy `main.go` variant differs only in omitting the
activation code from the response entries. -/
def activateDeviceF (f : ActivateFailures) (code : String) (s : Store) :
    Store × Except ApiError (List TermWithLockDateAndCode) :=
  match findUnusedCode s code with
  | none => (s, Except.error (ApiError.invalidArgument "Invalid or already used activation code"))
  | some ac =>
    if f.markUsed then
      (s, Except.error (ApiError.internalError "Failed to activate device"))
    else
      let s1 : Store := { s with
        activationCodes := s.activationCodes.map
          (fun a => if a.id = ac.id then { a with isUsed := true } else a) }
      let s2 : Store :=
        if f.deviceUpdate then s1
        else { s1 with
          devices := s1.devices.map
            (fun d => if d.id = ac.deviceId then { d with isActive := true } else d) }
      (s2, Except.ok (assembleTerms s2 ac.deviceId))

/-- The activation handler with no store failures. -/
def activateDevice (code : String) (s : Store) :
    Store × Except ApiError (List TermWithLockDateAndCode) :=
  activateDeviceF noActivateFailures code s

/-- Embedding of the serverless handler's `checkActivation`
(`GET /api/check`): find the device by serial number (404 when absent), and
when it is not yet active, activate it as a side effect of the read, then
assemble the terms response.  The legacy `main.go` variant instead answers
403 for an inactive device. -/
def checkActivation (serial : String) (s : Store) :
    Store × Except ApiError (List TermWithLockDateAndCode) :=
  if serial == "" then
    (s, Except.error (ApiError.invalidArgument "serial_number parameter is required"))
  else
    match findDeviceBySerial s serial with
    | none => (s, Except.error (ApiError.notFound "Device not found"))
    | some d =>
      let s1 : Store :=
        if d.isActive then s
        else { s with
          devices := s.devices.map
            (fun dd => if dd.id = d.id then { dd with isActive := true } else dd) }
      (s1, Except.ok (assembleTerms s1 d.id))

/-- Failure oracle for `setRemoteLock`: the `remote_locks` `UPDATE` and the
mirroring `devices` `UPDATE`. -/
structure SetLockFailures where
  remoteLockUpdate : Bool
  deviceUpdate : Bool
deriving DecidableEq, Repr

/-- The oracle under which every store call succeeds. -/
def noSetLockFailures : SetLockFailures := ⟨false, false⟩

/-- Embedding of `setRemoteLock` (`POST /api/remote-lock`): find the device
(404), update its `remote_locks` row (500 on failure), then mirror the flag
onto the device row (failure only logged). -/
def setRemoteLockF (f : SetLockFailures) (serial : String) (locked : Bool)
    (s : Store) : Store × Except ApiError Bool :=
  match findDeviceBySerial s serial with
  | none => (s, Except.error (ApiError.notFound "Device not found"))
  | some d =>
    if f.remoteLockUpdate then
      (s, Except.error (ApiError.internalError "Failed to update remote lock"))
    else
      let s1 : Store := { s with
        remoteLocks := s.remoteLocks.map
          (fun rl => if rl.deviceId = d.id then { rl with isLocked := locked } else rl) }
      let s2 : Store :=
        if f.deviceUpdate then s1
        else { s1 with
          devices := s1.devices.map
            (fun dd => if dd.id = d.id then { dd with isLocked := locked } else dd) }
      (s2, Except.ok locked)

/-- The remote-lock handler with no store failures. -/
def setRemoteLock (serial : String) (locked : Bool) (s : Store) :
    Store × Except ApiError Bool :=
  setRemoteLockF noSetLockFailures serial locked s

/-- Embedding of `checkRemoteLock` (`GET /api/check-lock`): read-only; 404
when the device or its remote-lock row is missing. -/
def checkRemoteLock (serial : String) (s : Store) : Store × Except ApiError Bool :=
  if serial == "" then
    (s, Except.error (ApiError.invalidArgument "serial_number parameter is required"))
  else
    match findDeviceBySerial s serial with
    | none => (s, Except.error (ApiError.notFound "Device not found"))
    | some d =>
      match findRemoteLock s d.id with
      | none => (s, Except.error (ApiError.notFound "Remote lock not found"))
      | some rl => (s, Except.ok rl.isLocked)

/-- Failure oracle for `unlockDevice`: the `devices` `UPDATE` and the
`remote_locks` `UPDATE`. -/
structure UnlockFailures where
  deviceUpdate : Bool
  remoteLockUpdate : Bool
deriving DecidableEq, Repr

/-- The oracle under which every store call succeeds. -/
def noUnlockFailures : UnlockFailures := ⟨false, false⟩

/-- Embedding of `unlockDevice` (`POST /api/unlock`): find the device
(404), clear `is_locked` and `is_active` on the device row (500 on
failure), then clear the `remote_locks` flag (failure only logged). -/
def unlockDeviceF (f : UnlockFailures) (serial : String) (s : Store) :
    Store × Except ApiError Unit :=
  match findDeviceBySerial s serial with
  | none => (s, Except.error (ApiError.notFound "Device not found"))
  | some d =>
    if f.deviceUpdate then
      (s, Except.error (ApiError.internalError "Failed to unlock device"))
    else
      let s1 : Store := { s with
        devices := s.devices.map
          (fun dd => if dd.id = d.id then { dd with isLocked := false, isActive := false } else dd) }
      let s2 : Store :=
        if f.remoteLockUpdate then s1
        else { s1 with
          remoteLocks := s1.remoteLocks.map
            (fun rl => if rl.deviceId = d.id then { rl with isLocked := false } else rl) }
      (s2, Except.ok ())

/-- The unlock handler with no store failures. -/
def unlockDevice (serial : String) (s : Store) : Store × Except ApiError Unit :=
  unlockDeviceF noUnlockFailures serial s

/-- One incoming API request (the health endpoint touches no state and is
omitted). -/
inductive Request where
  | register (req : RegisterDeviceRequest)
  | activate (code : String)
  | check (serial : String)
  | remoteLockSet (serial : String) (locked : Bool)
  | checkLock (serial : String)
  | unlock (serial : String)

/-- Post-state of dispatching one request (store-failure-free runs). -/
def applyRequest (s : Store) : Request → Store
  | Request.register req => (registerDevice req s).1
  | Request.activate code => (activateDevice code s).1
  | Request.check serial => (checkActivation serial s).1
  | Request.remoteLockSet serial locked => (setRemoteLock serial locked s).1
  | Request.checkLock serial => (checkRemoteLock serial s).1
  | Request.unlock serial => (unlockDevice serial s).1

/-- Run a sequence of requests against a store. -/
def runRequests (s : Store) (reqs : List Request) : Store :=
  reqs.foldl applyRequest s

/-- The list of `n` consecutive integers starting at `i` (the term numbers
a registration loop starting at term `i` walks through). -/
def intRangeFrom (i : Int) : Nat → List Int
  | 0 => []
  | Nat.succ k => i :: intRangeFrom (i + 1) k

/-- Freshness of the id supply: every row id and device reference in the
store is below the counter, so a freshly drawn id collides with nothing.
Every store reachable from `emptyStore` satisfies this. -/
def storeFresh (s : Store) : Prop :=
  (∀ d ∈ s.devices, d.id < s.nextId) ∧
  (∀ a ∈ s.activationCodes, a.deviceId < s.nextId) ∧
  (∀ r ∈ s.lockDates, r.deviceId < s.nextId) ∧
  (∀ rl ∈ s.remoteLocks, rl.deviceId < s.nextId)

instance (s : Store) : Decidable (storeFresh s) := by
  unfold storeFresh; infer_instance

/-- The two denormalized lock flags agree: every remote-lock row carries
the same boolean as the device row it references. -/
def lockSync (s : Store) : Prop :=
  ∀ d ∈ s.devices, ∀ rl ∈ s.remoteLocks, rl.deviceId = d.id → rl.isLocked = d.isLocked

/-- Ids of devices and remote-lock references are below the fresh-id
counter (the part of `storeFresh` the sync invariant needs). -/
def idsBounded (s : Store) : Prop :=
  (∀ d ∈ s.devices, d.id < s.nextId) ∧ (∀ rl ∈ s.remoteLocks, rl.deviceId < s.nextId)

/-- Store holding the single registered device TV1 (two terms, duration 15,
start 2024-01-01), used to instantiate hypotheses concretely. -/
def storeTV1 : Store :=
  (registerDevice ⟨"TV1", "C", "P", 2, "2024-01-01", 15⟩ emptyStore).1

/-- Device row of `storeTV1` (serial TV1, two terms, duration 15, start
2024-01-01 = day 19723). -/
def tv1Device : Device := ⟨0, "TV1", "C", "P", 2, 19723, 15, false, false⟩

/-- First activation-code row of `storeTV1`. -/
def tv1Code : ActivationCode := ⟨2, 0, "AC1", 1, false⟩

/-- Failure oracle in which only the registration remote-lock insert
fails. -/
def remoteLockInsertFails : RegisterFailures :=
  ⟨false, fun _ => false, fun _ => false, true⟩

/-- Registration request for a single-term device, used as a concrete
instantiation. -/
def req1 : RegisterDeviceRequest := ⟨"TV1", "C", "P", 1, "2024-01-01", 7⟩

lemma calculateLockDatesAux_length (termDuration : Int) :
    ∀ (n : Nat) (currentDate : Int),
      (calculateLockDatesAux currentDate termDuration n).length = n := by
  intro n
  induction n with
  | zero => intro c; rfl
  | succ m ih => intro c; simp [calculateLockDatesAux, ih]

lemma calculateLockDates_length (startDate termDuration emiTerm : Int) :
    (calculateLockDates startDate termDuration emiTerm).length = emiTerm.toNat := by
  unfold calculateLockDates
  exact calculateLockDatesAux_length _ _ _

lemma calculateLockDatesAux_get (termDuration : Int) :
    ∀ (n : Nat) (k : Nat) (currentDate : Int), k < n →
      (calculateLockDatesAux currentDate termDuration n)[k]? =
        some (currentDate + ((k : Int) + 1) * termDuration) := by
  intro n
  induction n with
  | zero => intro k c hk; omega
  | succ m ih =>
    intro k c hk
    cases k with
    | zero =>
      simp [calculateLockDatesAux]
      try ring
    | succ j =>
      have hj : j < m := by omega
      simp only [calculateLockDatesAux, List.getElem?_cons_succ]
      rw [ih j (c + termDuration) hj]
      congr 1
      push_cast
      ring

/-- Claim C2: for every start date s, term duration d and installment count
N, the lock date of term k (1-based, k ≤ N) computed by
`calculateLockDates` is s plus k·d days; and the concrete registration of
serial TV1 with start 2024-01-01, duration 15 and term count 3 yields lock
dates 2024-01-16, 2024-01-31, 2024-02-15. -/
theorem lockDate_of_term_is_start_plus_k_durations
    (startDate termDuration emiTerm : Int) (k : Nat) (hk : k < emiTerm.toNat) :
    (calculateLockDates startDate termDuration emiTerm)[k]? =
      some (startDate + ((k : Int) + 1) * termDuration) ∧
    Except.map (fun o => o.terms.map (fun t => t.lockDate))
        (registerDevice ⟨"TV1", "John Doe", "+1", 3, "2024-01-01", 15⟩ emptyStore).2 =
      Except.ok ["2024-01-16", "2024-01-31", "2024-02-15"] := by
  constructor
  · unfold calculateLockDates
    exact calculateLockDatesAux_get _ _ _ _ hk
  · rfl

theorem lockDate_of_term_is_start_plus_k_durations_witness :
    (1 < (3 : Int).toNat) ∧
    ((calculateLockDates 19723 15 3)[1]? = some (19723 + ((1 : Int) + 1) * 15) ∧
      Except.map (fun o => o.terms.map (fun t => t.lockDate))
          (registerDevice ⟨"TV1", "John Doe", "+1", 3, "2024-01-01", 15⟩ emptyStore).2 =
        Except.ok ["2024-01-16", "2024-01-31", "2024-02-15"]) :=
  ⟨by decide, lockDate_of_term_is_start_plus_k_durations 19723 15 3 1 (by decide)⟩

/-- Claim C5: registration fails with InvalidArgument for a disallowed
term duration; fails with InvalidArgument whenever the start date does not
parse as YYYY-MM-DD; and fails with Conflict when (the other validations
passing) the serial number already exists — in every such failure the
returned store is the input store, so no row of any table is created. -/
theorem registration_validation (req : RegisterDeviceRequest) (s : Store) :
    (req.termDuration ≠ 7 ∧ req.termDuration ≠ 15 ∧ req.termDuration ≠ 30 →
      registerDevice req s =
        (s, Except.error (ApiError.invalidArgument "Term duration must be 7, 15, or 30 days"))) ∧
    (parseDate req.emiStartDate = none →
      ∃ msg, registerDevice req s = (s, Except.error (ApiError.invalidArgument msg))) ∧
    ((req.termDuration = 7 ∨ req.termDuration = 15 ∨ req.termDuration = 30) →
      (parseDate req.emiStartDate).isSome →
      (findDeviceBySerial s req.serialNumber).isSome →
      registerDevice req s =
        (s, Except.error (ApiError.conflict "Device with this serial number already exists"))) := by
  refine ⟨?_, ?_, ?_⟩
  · intro h
    unfold registerDevice registerDeviceF
    rw [if_pos h]
  · intro hparse
    by_cases hdur : req.termDuration ≠ 7 ∧ req.termDuration ≠ 15 ∧ req.termDuration ≠ 30
    · refine ⟨"Term duration must be 7, 15, or 30 days", ?_⟩
      unfold registerDevice registerDeviceF
      rw [if_pos hdur]
    · refine ⟨"Invalid date format. Use YYYY-MM-DD", ?_⟩
      unfold registerDevice registerDeviceF
      rw [if_neg hdur, hparse]
  · intro hdur hparse hfound
    obtain ⟨z, hz⟩ := Option.isSome_iff_exists.mp hparse
    obtain ⟨d, hd⟩ := Option.isSome_iff_exists.mp hfound
    have hndur : ¬(req.termDuration ≠ 7 ∧ req.termDuration ≠ 15 ∧ req.termDuration ≠ 30) := by
      tauto
    unfold registerDevice registerDeviceF
    rw [if_neg hndur, hz, hd]

theorem registration_validation_witness :
    (registerDevice ⟨"TVA", "C", "P", 2, "2024-01-01", 10⟩ emptyStore =
      (emptyStore, Except.error (ApiError.invalidArgument "Term duration must be 7, 15, or 30 days"))) ∧
    (∃ msg, registerDevice ⟨"TVA", "C", "P", 2, "2024-13-01", 15⟩ emptyStore =
      (emptyStore, Except.error (ApiError.invalidArgument msg))) ∧
    (registerDevice ⟨"TV1", "C", "P", 2, "2024-01-01", 15⟩ storeTV1 =
      (storeTV1, Except.error (ApiError.conflict "Device with this serial number already exists"))) :=
  ⟨(registration_validation ⟨"TVA", "C", "P", 2, "2024-01-01", 10⟩ emptyStore).1 (by decide),
   (registration_validation ⟨"TVA", "C", "P", 2, "2024-13-01", 15⟩ emptyStore).2.1 (by decide),
   (registration_validation ⟨"TV1", "C", "P", 2, "2024-01-01", 15⟩ storeTV1).2.2
     (by decide) (by decide) (by decide)⟩

lemma registerLoop_noFail (deviceId : Nat) (lds : List Int) :
    ∀ (fuel : Nat) (i : Int) (s : Store) (acc : List TermWithLockDateAndCode),
      1 ≤ i → (i - 1).toNat + fuel ≤ lds.length →
      ∃ s2 terms newCodes newDates,
        registerLoop noRegisterFailures deviceId lds fuel i s acc = (s2, acc ++ terms, none) ∧
        s2.devices = s.devices ∧
        s2.remoteLocks = s.remoteLocks ∧
        s.nextId ≤ s2.nextId ∧
        s2.activationCodes = s.activationCodes ++ newCodes ∧
        newCodes.map (fun a => a.termNumber) = intRangeFrom i fuel ∧
        (∀ a ∈ newCodes, a.deviceId = deviceId ∧ a.isUsed = false) ∧
        s2.lockDates = s.lockDates ++ newDates ∧
        newDates.length = fuel ∧
        (∀ r ∈ newDates, r.deviceId = deviceId ∧ r.isLocked = false) := by
  intro fuel
  induction fuel with
  | zero =>
    intro i s acc hi hlen
    refine ⟨s, [], [], [], ?_, rfl, rfl, le_refl _, by simp, rfl, by simp, by simp, rfl, by simp⟩
    simp [registerLoop]
  | succ m ih =>
    intro i s acc hi hlen
    have hidx : (i - 1).toNat < lds.length := by omega
    have hld : lds[(i - 1).toNat]? = some lds[(i - 1).toNat] :=
      List.getElem?_eq_getElem hidx
    have hstep : registerLoop noRegisterFailures deviceId lds (m + 1) i s acc =
        registerLoop noRegisterFailures deviceId lds m (i + 1)
          { s with
            activationCodes := s.activationCodes ++
              [⟨s.nextId + 1, deviceId, generateActivationCode s.nextId, i, false⟩],
            lockDates := s.lockDates ++
              [⟨s.nextId + 2, deviceId, lds[(i - 1).toNat], false⟩],
            nextId := s.nextId + 3 }
          (acc ++ [⟨i, formatDate lds[(i - 1).toNat], generateActivationCode s.nextId⟩]) := by
      rw [registerLoop]
      simp only [noRegisterFailures, Bool.false_eq_true, if_false, hld]
    obtain ⟨s2, terms, nc, nd, heq, hdev, hrl, hnext, hcodes, hmap, hcprops, hdates, hdlen,
        hdprops⟩ :=
      ih (i + 1)
        { s with
          activationCodes := s.activationCodes ++
            [⟨s.nextId + 1, deviceId, generateActivationCode s.nextId, i, false⟩],
          lockDates := s.lockDates ++
            [⟨s.nextId + 2, deviceId, lds[(i - 1).toNat], false⟩],
          nextId := s.nextId + 3 }
        (acc ++ [⟨i, formatDate lds[(i - 1).toNat], generateActivationCode s.nextId⟩])
        (by omega) (by omega)
    refine ⟨s2,
      ⟨i, formatDate lds[(i - 1).toNat], generateActivationCode s.nextId⟩ :: terms,
      ⟨s.nextId + 1, deviceId, generateActivationCode s.nextId, i, false⟩ :: nc,
      ⟨s.nextId + 2, deviceId, lds[(i - 1).toNat], false⟩ :: nd,
      ?_, ?_, ?_, ?_, ?_, ?_, ?_, ?_, ?_, ?_⟩
    · rw [hstep, heq]
      simp
    · rw [hdev]
    · rw [hrl]
    · simp only at hnext
      omega
    · rw [hcodes]
      simp
    · simp [hmap, intRangeFrom]
    · intro a ha
      rcases List.mem_cons.mp ha with h | h
      · subst h; exact ⟨rfl, rfl⟩
      · exact hcprops a h
    · rw [hdates]
      simp
    · simp [hdlen]
    · intro r hr
      rcases List.mem_cons.mp hr with h | h
      · subst h; exact ⟨rfl, rfl⟩
      · exact hdprops r h

/-- Claim C3: a valid registration with `emi_term = N ≥ 1` creates, for the
new device, exactly N activation-code rows numbered 1..N (all unused),
exactly N lock-date rows, one device row with `is_active = false` and
`is_locked = false`, and exactly one remote-lock row with
`is_locked = false`. -/
theorem register_creates_schedule (req : RegisterDeviceRequest) (s : Store)
    (hfresh : storeFresh s) (hN : 1 ≤ req.emiTerm)
    (hdur : req.termDuration = 7 ∨ req.termDuration = 15 ∨ req.termDuration = 30)
    (hdate : (parseDate req.emiStartDate).isSome)
    (hserial : findDeviceBySerial s req.serialNumber = none) :
    ∃ s3 out, registerDevice req s = (s3, Except.ok out) ∧
      out.deviceId = s.nextId ∧
      ((s3.devices.filter (fun d => d.id == out.deviceId)).map
        (fun d => (d.isActive, d.isLocked))) = [(false, false)] ∧
      ((s3.activationCodes.filter (fun a => a.deviceId == out.deviceId)).map
        (fun a => a.termNumber)) = intRangeFrom 1 req.emiTerm.toNat ∧
      (∀ a ∈ s3.activationCodes.filter (fun a => a.deviceId == out.deviceId),
        a.isUsed = false) ∧
      (s3.lockDates.filter (fun r => r.deviceId == out.deviceId)).length
        = req.emiTerm.toNat ∧
      ((s3.remoteLocks.filter (fun rl => rl.deviceId == out.deviceId)).map
        (fun rl => rl.isLocked)) = [false] := by
  obtain ⟨z, hz⟩ := Option.isSome_iff_exists.mp hdate
  have hndur : ¬(req.termDuration ≠ 7 ∧ req.termDuration ≠ 15 ∧ req.termDuration ≠ 30) := by
    tauto
  have hlen : ((1 : Int) - 1).toNat + req.emiTerm.toNat ≤
      (calculateLockDates z req.termDuration req.emiTerm).length := by
    rw [calculateLockDates_length]; omega
  obtain ⟨s2, terms, nc, nd, heq, hdev, hrl, hnext, hcodes, hmap, hcprops, hdates, hdlen,
      hdprops⟩ :=
    registerLoop_noFail s.nextId (calculateLockDates z req.termDuration req.emiTerm)
      req.emiTerm.toNat 1
      { s with
        devices := s.devices ++
          [⟨s.nextId, req.serialNumber, req.customerName, req.phoneNumber,
            req.emiTerm, z, req.termDuration, false, false⟩],
        nextId := s.nextId + 1 }
      [] (le_refl 1) hlen
  unfold registerDevice registerDeviceF
  rw [if_neg hndur, hz, hserial]
  simp only [noRegisterFailures, Bool.false_eq_true, if_false]
  simp only [noRegisterFailures] at heq
  rw [heq]
  refine ⟨_, ⟨s.nextId, terms⟩, rfl, rfl, ?_, ?_, ?_, ?_, ?_⟩
  · simp only [hdev]
    simp only [List.filter_append]
    rw [List.filter_eq_nil_iff.mpr, List.nil_append]
    · simp
    · intro d hd
      have := hfresh.1 d hd
      simp only [beq_iff_eq]
      omega
  · rw [hcodes]
    simp only [List.filter_append]
    rw [List.filter_eq_nil_iff.mpr, List.nil_append, List.filter_eq_self.mpr]
    · exact hmap
    · intro a ha
      have := (hcprops a ha).1
      simp [this]
    · intro a ha
      have := hfresh.2.1 a ha
      simp only [beq_iff_eq]
      omega
  · intro a ha
    rw [hcodes] at ha
    simp only [List.filter_append, List.mem_append] at ha
    rcases ha with h | h
    · have := hfresh.2.1 a (List.mem_of_mem_filter h)
      have h2 := List.of_mem_filter h
      simp only [beq_iff_eq] at h2
      omega
    · exact (hcprops a (List.mem_of_mem_filter h)).2
  · rw [hdates]
    simp only [List.filter_append]
    rw [List.filter_eq_nil_iff.mpr, List.nil_append, List.filter_eq_self.mpr]
    · exact hdlen
    · intro r hr
      have := (hdprops r hr).1
      simp [this]
    · intro r hr
      have := hfresh.2.2.1 r hr
      simp only [beq_iff_eq]
      omega
  · rw [hrl]
    simp only [List.filter_append]
    rw [List.filter_eq_nil_iff.mpr, List.nil_append]
    · simp
    · intro rl hrl2
      have := hfresh.2.2.2 rl hrl2
      simp only [beq_iff_eq]
      omega

theorem register_creates_schedule_witness :
    storeFresh emptyStore ∧
    (∃ s3 out,
      registerDevice ⟨"TV1", "C", "P", 2, "2024-01-01", 15⟩ emptyStore =
        (s3, Except.ok out) ∧
      out.deviceId = emptyStore.nextId ∧
      ((s3.devices.filter (fun d => d.id == out.deviceId)).map
        (fun d => (d.isActive, d.isLocked))) = [(false, false)] ∧
      ((s3.activationCodes.filter (fun a => a.deviceId == out.deviceId)).map
        (fun a => a.termNumber)) = intRangeFrom 1 (2 : Int).toNat ∧
      (∀ a ∈ s3.activationCodes.filter (fun a => a.deviceId == out.deviceId),
        a.isUsed = false) ∧
      (s3.lockDates.filter (fun r => r.deviceId == out.deviceId)).length
        = (2 : Int).toNat ∧
      ((s3.remoteLocks.filter (fun rl => rl.deviceId == out.deviceId)).map
        (fun rl => rl.isLocked)) = [false]) :=
  ⟨by decide,
   register_creates_schedule ⟨"TV1", "C", "P", 2, "2024-01-01", 15⟩ emptyStore
     (by decide) (by decide) (by decide) (by decide) (by decide)⟩

/-- Claim C10: registration does not validate the installment count — with
`emi_term ≤ 0` and otherwise valid input it succeeds with an empty terms
list, creating the device row and its remote-lock row but no
activation-code or lock-date rows. -/
theorem register_accepts_nonpositive_emiTerm (req : RegisterDeviceRequest) (s : Store)
    (hfresh : storeFresh s) (hN : req.emiTerm ≤ 0)
    (hdur : req.termDuration = 7 ∨ req.termDuration = 15 ∨ req.termDuration = 30)
    (hdate : (parseDate req.emiStartDate).isSome)
    (hserial : findDeviceBySerial s req.serialNumber = none) :
    ∃ s3, registerDevice req s = (s3, Except.ok ⟨s.nextId, []⟩) ∧
      ((s3.devices.filter (fun d => d.id == s.nextId)).map
        (fun d => (d.isActive, d.isLocked))) = [(false, false)] ∧
      s3.activationCodes.filter (fun a => a.deviceId == s.nextId) = [] ∧
      s3.lockDates.filter (fun r => r.deviceId == s.nextId) = [] ∧
      ((s3.remoteLocks.filter (fun rl => rl.deviceId == s.nextId)).map
        (fun rl => rl.isLocked)) = [false] := by
  obtain ⟨z, hz⟩ := Option.isSome_iff_exists.mp hdate
  have hndur : ¬(req.termDuration ≠ 7 ∧ req.termDuration ≠ 15 ∧ req.termDuration ≠ 30) := by
    tauto
  have htz : req.emiTerm.toNat = 0 := by omega
  unfold registerDevice registerDeviceF
  rw [if_neg hndur, hz, hserial]
  simp only [noRegisterFailures, Bool.false_eq_true, if_false, htz]
  simp only [registerLoop]
  refine ⟨_, rfl, ?_, ?_, ?_, ?_⟩
  · simp only [List.filter_append]
    rw [List.filter_eq_nil_iff.mpr, List.nil_append]
    · simp
    · intro d hd
      have := hfresh.1 d hd
      simp only [beq_iff_eq]
      omega
  · rw [List.filter_eq_nil_iff.mpr]
    intro a ha
    have := hfresh.2.1 a ha
    simp only [beq_iff_eq]
    omega
  · rw [List.filter_eq_nil_iff.mpr]
    intro r hr
    have := hfresh.2.2.1 r hr
    simp only [beq_iff_eq]
    omega
  · simp only [List.filter_append]
    rw [List.filter_eq_nil_iff.mpr, List.nil_append]
    · simp
    · intro rl hrl
      have := hfresh.2.2.2 rl hrl
      simp only [beq_iff_eq]
      omega

theorem register_accepts_nonpositive_emiTerm_witness :
    storeFresh emptyStore ∧
    (∃ s3, registerDevice ⟨"TV0", "C", "P", 0, "2024-01-01", 7⟩ emptyStore =
        (s3, Except.ok ⟨emptyStore.nextId, []⟩) ∧
      ((s3.devices.filter (fun d => d.id == emptyStore.nextId)).map
        (fun d => (d.isActive, d.isLocked))) = [(false, false)] ∧
      s3.activationCodes.filter (fun a => a.deviceId == emptyStore.nextId) = [] ∧
      s3.lockDates.filter (fun r => r.deviceId == emptyStore.nextId) = [] ∧
      ((s3.remoteLocks.filter (fun rl => rl.deviceId == emptyStore.nextId)).map
        (fun rl => rl.isLocked)) = [false]) :=
  ⟨by decide,
   register_accepts_nonpositive_emiTerm ⟨"TV0", "C", "P", 0, "2024-01-01", 7⟩ emptyStore
     (by decide) (by decide) (by decide) (by decide) (by decide)⟩

lemma checkRemoteLock_fst (serial : String) (s : Store) :
    (checkRemoteLock serial s).1 = s := by
  unfold checkRemoteLock
  split
  · rfl
  · split
    · rfl
    · split <;> rfl

lemma register_preserves (req : RegisterDeviceRequest) (s : Store)
    (h1 : idsBounded s) (h2 : lockSync s) :
    idsBounded (registerDevice req s).1 ∧ lockSync (registerDevice req s).1 := by
  unfold registerDevice registerDeviceF
  by_cases hdur : req.termDuration ≠ 7 ∧ req.termDuration ≠ 15 ∧ req.termDuration ≠ 30
  · rw [if_pos hdur]; exact ⟨h1, h2⟩
  rw [if_neg hdur]
  cases hparse : parseDate req.emiStartDate with
  | none => exact ⟨h1, h2⟩
  | some z =>
    cases hfind : findDeviceBySerial s req.serialNumber with
    | some d => exact ⟨h1, h2⟩
    | none =>
      simp only [noRegisterFailures, Bool.false_eq_true, if_false]
      obtain ⟨s2, terms, nc, nd, heq, hdev, hrl, hnext, _, _, _, _, _, _⟩ :=
        registerLoop_noFail s.nextId (calculateLockDates z req.termDuration req.emiTerm)
          req.emiTerm.toNat 1
          { s with
            devices := s.devices ++
              [⟨s.nextId, req.serialNumber, req.customerName, req.phoneNumber,
                req.emiTerm, z, req.termDuration, false, false⟩],
            nextId := s.nextId + 1 }
          [] (le_refl 1) (by rw [calculateLockDates_length]; omega)
      simp only [noRegisterFailures] at heq
      rw [heq]
      have hdev2 : s2.devices = s.devices ++
          [⟨s.nextId, req.serialNumber, req.customerName, req.phoneNumber,
            req.emiTerm, z, req.termDuration, false, false⟩] := hdev
      have hrl2 : s2.remoteLocks = s.remoteLocks := hrl
      have hnext2 : s.nextId + 1 ≤ s2.nextId := hnext
      constructor
      · constructor
        · intro d hd
          replace hd : d ∈ s2.devices := hd
          rw [hdev2] at hd
          show d.id < s2.nextId + 1
          rcases List.mem_append.mp hd with h | h
          · have := h1.1 d h
            omega
          · rw [List.mem_singleton.mp h]
            show s.nextId < s2.nextId + 1
            omega
        · intro rl hmem
          replace hmem : rl ∈ s2.remoteLocks ++ [⟨s2.nextId, s.nextId, false⟩] := hmem
          rw [hrl2] at hmem
          show rl.deviceId < s2.nextId + 1
          rcases List.mem_append.mp hmem with h | h
          · have := h1.2 rl h
            omega
          · rw [List.mem_singleton.mp h]
            show s.nextId < s2.nextId + 1
            omega
      · intro d hd rl hmem hid
        replace hd : d ∈ s2.devices := hd
        rw [hdev2] at hd
        replace hmem : rl ∈ s2.remoteLocks ++ [⟨s2.nextId, s.nextId, false⟩] := hmem
        rw [hrl2] at hmem
        rcases List.mem_append.mp hd with hdo | hdn
        · rcases List.mem_append.mp hmem with hro | hrn
          · exact h2 d hdo rl hro hid
          · have hb := h1.1 d hdo
            rw [List.mem_singleton.mp hrn] at hid
            replace hid : s.nextId = d.id := hid
            omega
        · rcases List.mem_append.mp hmem with hro | hrn
          · have hb := h1.2 rl hro
            rw [List.mem_singleton.mp hdn] at hid
            replace hid : rl.deviceId = s.nextId := hid
            omega
          · rw [List.mem_singleton.mp hdn, List.mem_singleton.mp hrn]

lemma activate_preserves (c : String) (s : Store)
    (h1 : idsBounded s) (h2 : lockSync s) :
    idsBounded (activateDevice c s).1 ∧ lockSync (activateDevice c s).1 := by
  unfold activateDevice activateDeviceF
  cases hfind : findUnusedCode s c with
  | none => exact ⟨h1, h2⟩
  | some ac =>
    simp only [noActivateFailures, Bool.false_eq_true, if_false]
    constructor
    · constructor
      · intro d hd
        replace hd : d ∈ s.devices.map
          (fun x => if x.id = ac.deviceId then { x with isActive := true } else x) := hd
        obtain ⟨d0, hd0, hgd⟩ := List.mem_map.mp hd
        have hb := h1.1 d0 hd0
        have hidp : d.id = d0.id := by rw [← hgd]; split <;> rfl
        show d.id < s.nextId
        omega
      · intro rl hmem
        exact h1.2 rl hmem
    · intro d hd rl hmem hid
      replace hd : d ∈ s.devices.map
        (fun x => if x.id = ac.deviceId then { x with isActive := true } else x) := hd
      replace hmem : rl ∈ s.remoteLocks := hmem
      obtain ⟨d0, hd0, hgd⟩ := List.mem_map.mp hd
      have hidp : d.id = d0.id := by rw [← hgd]; split <;> rfl
      have hlkp : d.isLocked = d0.isLocked := by rw [← hgd]; split <;> rfl
      rw [hlkp]
      exact h2 d0 hd0 rl hmem (by omega)

lemma check_preserves (serial : String) (s : Store)
    (h1 : idsBounded s) (h2 : lockSync s) :
    idsBounded (checkActivation serial s).1 ∧ lockSync (checkActivation serial s).1 := by
  unfold checkActivation
  split
  · exact ⟨h1, h2⟩
  cases hfind : findDeviceBySerial s serial with
  | none => exact ⟨h1, h2⟩
  | some d =>
    dsimp only
    by_cases hact : d.isActive = true
    · rw [if_pos hact]
      exact ⟨h1, h2⟩
    rw [if_neg hact]
    constructor
    · constructor
      · intro dd hdd
        replace hdd : dd ∈ s.devices.map
          (fun x => if x.id = d.id then { x with isActive := true } else x) := hdd
        obtain ⟨d0, hd0, hgd⟩ := List.mem_map.mp hdd
        have hb := h1.1 d0 hd0
        have hidp : dd.id = d0.id := by rw [← hgd]; split <;> rfl
        show dd.id < s.nextId
        omega
      · intro rl hmem
        exact h1.2 rl hmem
    · intro dd hdd rl hmem hid
      replace hdd : dd ∈ s.devices.map
        (fun x => if x.id = d.id then { x with isActive := true } else x) := hdd
      replace hmem : rl ∈ s.remoteLocks := hmem
      obtain ⟨d0, hd0, hgd⟩ := List.mem_map.mp hdd
      have hidp : dd.id = d0.id := by rw [← hgd]; split <;> rfl
      have hlkp : dd.isLocked = d0.isLocked := by rw [← hgd]; split <;> rfl
      rw [hlkp]
      exact h2 d0 hd0 rl hmem (by omega)

lemma setRemoteLock_preserves (serial : String) (locked : Bool) (s : Store)
    (h1 : idsBounded s) (h2 : lockSync s) :
    idsBounded (setRemoteLock serial locked s).1 ∧
      lockSync (setRemoteLock serial locked s).1 := by
  unfold setRemoteLock setRemoteLockF
  cases hfind : findDeviceBySerial s serial with
  | none => exact ⟨h1, h2⟩
  | some d =>
    simp only [noSetLockFailures, Bool.false_eq_true, if_false]
    constructor
    · constructor
      · intro dd hdd
        replace hdd : dd ∈ s.devices.map
          (fun x => if x.id = d.id then { x with isLocked := locked } else x) := hdd
        obtain ⟨d0, hd0, hgd⟩ := List.mem_map.mp hdd
        have hb := h1.1 d0 hd0
        have hidp : dd.id = d0.id := by rw [← hgd]; split <;> rfl
        show dd.id < s.nextId
        omega
      · intro rl hmem
        replace hmem : rl ∈ s.remoteLocks.map
          (fun x => if x.deviceId = d.id then { x with isLocked := locked } else x) := hmem
        obtain ⟨rl0, hrl0, hgrl⟩ := List.mem_map.mp hmem
        have hb := h1.2 rl0 hrl0
        have hidp : rl.deviceId = rl0.deviceId := by rw [← hgrl]; split <;> rfl
        show rl.deviceId < s.nextId
        omega
    · intro dd hdd rl hmem hid
      replace hdd : dd ∈ s.devices.map
        (fun x => if x.id = d.id then { x with isLocked := locked } else x) := hdd
      replace hmem : rl ∈ s.remoteLocks.map
        (fun x => if x.deviceId = d.id then { x with isLocked := locked } else x) := hmem
      obtain ⟨d0, hd0, hgd⟩ := List.mem_map.mp hdd
      obtain ⟨rl0, hrl0, hgrl⟩ := List.mem_map.mp hmem
      have hdid : dd.id = d0.id := by rw [← hgd]; split <;> rfl
      have hrlid : rl.deviceId = rl0.deviceId := by rw [← hgrl]; split <;> rfl
      by_cases hc : d0.id = d.id
      · have hdd2 : dd.isLocked = locked := by rw [← hgd, if_pos hc]
        have hr0 : rl0.deviceId = d.id := by omega
        have hrl2 : rl.isLocked = locked := by rw [← hgrl, if_pos hr0]
        rw [hdd2, hrl2]
      · have hdd2 : dd.isLocked = d0.isLocked := by rw [← hgd, if_neg hc]
        have hr0 : ¬rl0.deviceId = d.id := by omega
        have hrl2 : rl.isLocked = rl0.isLocked := by rw [← hgrl, if_neg hr0]
        rw [hdd2, hrl2]
        exact h2 d0 hd0 rl0 hrl0 (by omega)

lemma unlock_preserves (serial : String) (s : Store)
    (h1 : idsBounded s) (h2 : lockSync s) :
    idsBounded (unlockDevice serial s).1 ∧ lockSync (unlockDevice serial s).1 := by
  unfold unlockDevice unlockDeviceF
  cases hfind : findDeviceBySerial s serial with
  | none => exact ⟨h1, h2⟩
  | some d =>
    simp only [noUnlockFailures, Bool.false_eq_true, if_false]
    constructor
    · constructor
      · intro dd hdd
        replace hdd : dd ∈ s.devices.map
          (fun x => if x.id = d.id then { x with isLocked := false, isActive := false } else x) := hdd
        obtain ⟨d0, hd0, hgd⟩ := List.mem_map.mp hdd
        have hb := h1.1 d0 hd0
        have hidp : dd.id = d0.id := by rw [← hgd]; split <;> rfl
        show dd.id < s.nextId
        omega
      · intro rl hmem
        replace hmem : rl ∈ s.remoteLocks.map
          (fun x => if x.deviceId = d.id then { x with isLocked := false } else x) := hmem
        obtain ⟨rl0, hrl0, hgrl⟩ := List.mem_map.mp hmem
        have hb := h1.2 rl0 hrl0
        have hidp : rl.deviceId = rl0.deviceId := by rw [← hgrl]; split <;> rfl
        show rl.deviceId < s.nextId
        omega
    · intro dd hdd rl hmem hid
      replace hdd : dd ∈ s.devices.map
        (fun x => if x.id = d.id then { x with isLocked := false, isActive := false } else x) := hdd
      replace hmem : rl ∈ s.remoteLocks.map
        (fun x => if x.deviceId = d.id then { x with isLocked := false } else x) := hmem
      obtain ⟨d0, hd0, hgd⟩ := List.mem_map.mp hdd
      obtain ⟨rl0, hrl0, hgrl⟩ := List.mem_map.mp hmem
      have hdid : dd.id = d0.id := by rw [← hgd]; split <;> rfl
      have hrlid : rl.deviceId = rl0.deviceId := by rw [← hgrl]; split <;> rfl
      by_cases hc : d0.id = d.id
      · have hdd2 : dd.isLocked = false := by rw [← hgd, if_pos hc]
        have hr0 : rl0.deviceId = d.id := by omega
        have hrl2 : rl.isLocked = false := by rw [← hgrl, if_pos hr0]
        rw [hdd2, hrl2]
      · have hdd2 : dd.isLocked = d0.isLocked := by rw [← hgd, if_neg hc]
        have hr0 : ¬rl0.deviceId = d.id := by omega
        have hrl2 : rl.isLocked = rl0.isLocked := by rw [← hgrl, if_neg hr0]
        rw [hdd2, hrl2]
        exact h2 d0 hd0 rl0 hrl0 (by omega)

lemma applyRequest_preserves (s : Store) (r : Request)
    (h1 : idsBounded s) (h2 : lockSync s) :
    idsBounded (applyRequest s r) ∧ lockSync (applyRequest s r) := by
  cases r with
  | register req => exact register_preserves req s h1 h2
  | activate code => exact activate_preserves code s h1 h2
  | check serial => exact check_preserves serial s h1 h2
  | remoteLockSet serial locked => exact setRemoteLock_preserves serial locked s h1 h2
  | checkLock serial =>
    show idsBounded (checkRemoteLock serial s).1 ∧ lockSync (checkRemoteLock serial s).1
    rw [checkRemoteLock_fst]
    exact ⟨h1, h2⟩
  | unlock serial => exact unlock_preserves serial s h1 h2

/-- Claim C8: after any sequence of requests starting from the empty store,
every device row's `is_locked` flag agrees with its remote-lock row's
`is_locked` flag — the two denormalized copies stay in sync across
registration, remote-lock-set, unlock and all other operations. -/
theorem device_and_remoteLock_flags_in_sync (reqs : List Request) :
    lockSync (runRequests emptyStore reqs) := by
  have main : ∀ (l : List Request) (s : Store), idsBounded s → lockSync s →
      idsBounded (runRequests s l) ∧ lockSync (runRequests s l) := by
    intro l
    induction l with
    | nil => intro s ha hb; exact ⟨ha, hb⟩
    | cons r t ih =>
      intro s ha hb
      have h := applyRequest_preserves s r ha hb
      exact ih (applyRequest s r) h.1 h.2
  refine (main reqs emptyStore ⟨?_, ?_⟩ ?_).2
  · intro d hd; exact absurd hd (List.not_mem_nil d)
  · intro rl hrl; exact absurd hrl (List.not_mem_nil rl)
  · intro d hd; exact absurd hd (List.not_mem_nil d)

theorem device_and_remoteLock_flags_in_sync_witness :
    lockSync (runRequests emptyStore
      [Request.register req1, Request.remoteLockSet "TV1" true, Request.unlock "TV1"]) :=
  device_and_remoteLock_flags_in_sync
    [Request.register req1, Request.remoteLockSet "TV1" true, Request.unlock "TV1"]

lemma find?_map_invariant {α : Type} (l : List α) (f : α → α) (p : α → Bool)
    (hp : ∀ x, p (f x) = p x) : (l.map f).find? p = (l.find? p).map f := by
  rw [List.find?_map]
  have hfun : (p ∘ f) = p := funext hp
  rw [hfun]

/-- Claim C1: `GET /api/check` on a registered but not-yet-active device
activates it as a side effect and returns the terms list; a second check
on the same device succeeds with the same terms (idempotent after the
first activation).  This is the serverless handler's behaviour; the legacy
`main.go` variant answers 403 here instead. -/
theorem check_autoActivates_and_idempotent (serial : String) (s : Store) (d : Device)
    (hser : serial ≠ "")
    (hfind : findDeviceBySerial s serial = some d)
    (hinactive : d.isActive = false) :
    ∃ s1 terms, checkActivation serial s = (s1, Except.ok terms) ∧
      (∀ dd ∈ s1.devices, dd.id = d.id → dd.isActive = true) ∧
      terms = assembleTerms s d.id ∧
      checkActivation serial s1 = (s1, Except.ok terms) := by
  have hbeq : ¬((serial == "") = true) := by
    simp only [beq_iff_eq]
    exact hser
  unfold checkActivation
  rw [if_neg hbeq, hfind]
  dsimp only
  rw [if_neg (by simp [hinactive])]
  have hfind1 : findDeviceBySerial { s with devices := List.map (fun dd => if dd.id = d.id then { dd with isActive := true } else dd) s.devices } serial = some { d with isActive := true } := by
    unfold findDeviceBySerial at hfind ⊢
    show (s.devices.map
        (fun dd => if dd.id = d.id then { dd with isActive := true } else dd)).find?
        (fun dd => dd.serialNumber == serial) = _
    rw [find?_map_invariant _ _ _ (by intro x; split <;> rfl), hfind]
    show some (if d.id = d.id then { d with isActive := true } else d) = _
    rw [if_pos rfl]
  refine ⟨_, _, rfl, ?_, ?_, ?_⟩
  · intro dd hdd hid
    replace hdd : dd ∈ s.devices.map
      (fun x => if x.id = d.id then { x with isActive := true } else x) := hdd
    obtain ⟨d0, hd0, hgd⟩ := List.mem_map.mp hdd
    by_cases hc : d0.id = d.id
    · rw [← hgd, if_pos hc]
    · exfalso
      have : dd.id = d0.id := by rw [← hgd, if_neg hc]
      omega
  · rfl
  · rw [if_neg hbeq, hfind1]
    rfl

/-- Claim C4: activating an existing unused code succeeds, marking exactly
that code used and setting the owning device active; a second attempt with
the same code fails with the invalid/used error and leaves the store — in
particular the device's active flag — unchanged.  `huniq` is the
activation-code uniqueness the schema enforces (`code VARCHAR UNIQUE`). -/
theorem activate_code_single_use (c : String) (s : Store) (ac : ActivationCode)
    (hfind : findUnusedCode s c = some ac)
    (huniq : ∀ a ∈ s.activationCodes, a.code = c → a.id = ac.id) :
    ∃ s1 terms, activateDevice c s = (s1, Except.ok terms) ∧
      s1.activationCodes = s.activationCodes.map
        (fun a => if a.id = ac.id then { a with isUsed := true } else a) ∧
      (∀ a ∈ s1.activationCodes, a.id = ac.id → a.isUsed = true) ∧
      (∀ dd ∈ s1.devices, dd.id = ac.deviceId → dd.isActive = true) ∧
      activateDevice c s1 =
        (s1, Except.error (ApiError.invalidArgument "Invalid or already used activation code")) := by
  unfold activateDevice activateDeviceF
  rw [hfind]
  simp only [noActivateFailures, Bool.false_eq_true, if_false]
  refine ⟨_, _, rfl, rfl, ?_, ?_, ?_⟩
  · intro a ha hid
    replace ha : a ∈ s.activationCodes.map
      (fun x => if x.id = ac.id then { x with isUsed := true } else x) := ha
    obtain ⟨a0, ha0, hga⟩ := List.mem_map.mp ha
    by_cases hc : a0.id = ac.id
    · rw [← hga, if_pos hc]
    · exfalso
      have : a.id = a0.id := by rw [← hga, if_neg hc]
      omega
  · intro dd hdd hid
    replace hdd : dd ∈ (s.devices.map
      (fun x => if x.id = ac.deviceId then { x with isActive := true } else x)) := hdd
    obtain ⟨d0, hd0, hgd⟩ := List.mem_map.mp hdd
    by_cases hc : d0.id = ac.deviceId
    · rw [← hgd, if_pos hc]
    · exfalso
      have : dd.id = d0.id := by rw [← hgd, if_neg hc]
      omega
  · have hnone : findUnusedCode { s with activationCodes := List.map (fun a => if a.id = ac.id then { a with isUsed := true } else a) s.activationCodes, devices := List.map (fun x => if x.id = ac.deviceId then { x with isActive := true } else x) s.devices } c = none := by
      unfold findUnusedCode
      apply List.find?_eq_none.mpr
      intro a ha
      replace ha : a ∈ s.activationCodes.map
        (fun x => if x.id = ac.id then { x with isUsed := true } else x) := ha
      obtain ⟨a0, ha0, hga⟩ := List.mem_map.mp ha
      by_cases hc : a0.id = ac.id
      · have : a = { a0 with isUsed := true } := by rw [← hga, if_pos hc]
        rw [this]
        simp
      · have ha2 : a = a0 := by rw [← hga, if_neg hc]
        rw [ha2]
        intro hcontra
        simp only [Bool.and_eq_true, beq_iff_eq] at hcontra
        exact hc (huniq a0 ha0 hcontra.1)
    rw [hnone]

theorem check_autoActivates_and_idempotent_witness :
    ("TV1" : String) ≠ "" ∧ findDeviceBySerial storeTV1 "TV1" = some tv1Device ∧
    tv1Device.isActive = false ∧
    (∃ s1 terms, checkActivation "TV1" storeTV1 = (s1, Except.ok terms) ∧
      (∀ dd ∈ s1.devices, dd.id = tv1Device.id → dd.isActive = true) ∧
      terms = assembleTerms storeTV1 tv1Device.id ∧
      checkActivation "TV1" s1 = (s1, Except.ok terms)) :=
  ⟨by decide, by decide, by decide,
   check_autoActivates_and_idempotent "TV1" storeTV1 tv1Device (by decide) (by decide)
     (by decide)⟩

theorem activate_code_single_use_witness :
    findUnusedCode storeTV1 "AC1" = some tv1Code ∧
    (∀ a ∈ storeTV1.activationCodes, a.code = "AC1" → a.id = tv1Code.id) ∧
    (∃ s1 terms, activateDevice "AC1" storeTV1 = (s1, Except.ok terms) ∧
      s1.activationCodes = storeTV1.activationCodes.map
        (fun a => if a.id = tv1Code.id then { a with isUsed := true } else a) ∧
      (∀ a ∈ s1.activationCodes, a.id = tv1Code.id → a.isUsed = true) ∧
      (∀ dd ∈ s1.devices, dd.id = tv1Code.deviceId → dd.isActive = true) ∧
      activateDevice "AC1" s1 =
        (s1, Except.error (ApiError.invalidArgument "Invalid or already used activation code"))) :=
  ⟨by decide, by decide,
   activate_code_single_use "AC1" storeTV1 tv1Code (by decide) (by decide)⟩

/-- Claim C7: for a registered device, setting the remote lock to true makes
check-lock answer true; a subsequent unlock forces the device row's
`is_active` and `is_locked` to false and the remote-lock row to false, after
which check-lock answers false. -/
theorem remoteLock_set_check_unlock_cycle (serial : String) (s : Store) (d : Device)
    (hser : serial ≠ "")
    (hfind : findDeviceBySerial s serial = some d)
    (hrl : ∃ rl ∈ s.remoteLocks, rl.deviceId = d.id) :
    ∃ s1, setRemoteLock serial true s = (s1, Except.ok true) ∧
      checkRemoteLock serial s1 = (s1, Except.ok true) ∧
      ∃ s2, unlockDevice serial s1 = (s2, Except.ok ()) ∧
        (∀ dd ∈ s2.devices, dd.id = d.id → dd.isActive = false ∧ dd.isLocked = false) ∧
        (∀ rl ∈ s2.remoteLocks, rl.deviceId = d.id → rl.isLocked = false) ∧
        checkRemoteLock serial s2 = (s2, Except.ok false) := by
  have hbeq : ¬((serial == "") = true) := by
    simp only [beq_iff_eq]
    exact hser
  have hsome : (s.remoteLocks.find? (fun rl => rl.deviceId == d.id)).isSome :=
    List.find?_isSome.mpr (by
      obtain ⟨rl0, h0, h1⟩ := hrl
      exact ⟨rl0, h0, by simp [h1]⟩)
  obtain ⟨rlf, hrlf⟩ := Option.isSome_iff_exists.mp hsome
  have hrlfp : rlf.deviceId = d.id := by
    have := List.find?_some hrlf
    simpa using this
  have hfindDev1 : findDeviceBySerial { s with remoteLocks := List.map (fun rl => if rl.deviceId = d.id then { rl with isLocked := true } else rl) s.remoteLocks, devices := List.map (fun dd => if dd.id = d.id then { dd with isLocked := true } else dd) s.devices } serial = some { d with isLocked := true } := by
    unfold findDeviceBySerial at hfind ⊢
    show (List.map (fun dd => if dd.id = d.id then { dd with isLocked := true } else dd)
      s.devices).find? (fun dd => dd.serialNumber == serial) = _
    rw [find?_map_invariant _ _ _ (by intro x; split <;> rfl), hfind]
    show some (if d.id = d.id then { d with isLocked := true } else d) = _
    rw [if_pos rfl]
  unfold setRemoteLock setRemoteLockF
  rw [hfind]
  simp only [noSetLockFailures, Bool.false_eq_true, if_false]
  refine ⟨_, rfl, ?_, ?_⟩
  · unfold checkRemoteLock
    rw [if_neg hbeq, hfindDev1]
    dsimp only
    have hfr : findRemoteLock { s with remoteLocks := List.map (fun rl => if rl.deviceId = d.id then { rl with isLocked := true } else rl) s.remoteLocks, devices := List.map (fun dd => if dd.id = d.id then { dd with isLocked := true } else dd) s.devices } d.id = some { rlf with isLocked := true } := by
      unfold findRemoteLock
      show (List.map (fun rl => if rl.deviceId = d.id then { rl with isLocked := true } else rl)
        s.remoteLocks).find? (fun rl => rl.deviceId == d.id) = _
      rw [find?_map_invariant _ _ _ (by intro x; split <;> rfl), hrlf]
      show some (if rlf.deviceId = d.id then { rlf with isLocked := true } else rlf) = _
      rw [if_pos hrlfp]
    rw [hfr]
  · unfold unlockDevice unlockDeviceF
    rw [hfindDev1]
    simp only [noUnlockFailures, Bool.false_eq_true, if_false]
    dsimp only
    refine ⟨_, rfl, ?_, ?_, ?_⟩
    · intro dd hdd hid
      replace hdd : dd ∈ List.map (fun x => if x.id = d.id then { x with isLocked := false, isActive := false } else x) (List.map (fun x => if x.id = d.id then { x with isLocked := true } else x) s.devices) := hdd
      obtain ⟨d1, hd1, hu⟩ := List.mem_map.mp hdd
      by_cases hc : d1.id = d.id
      · constructor
        · rw [← hu, if_pos hc]
        · rw [← hu, if_pos hc]
      · exfalso
        have : dd.id = d1.id := by rw [← hu, if_neg hc]
        omega
    · intro rl hmem hid
      replace hmem : rl ∈ List.map (fun x => if x.deviceId = d.id then { x with isLocked := false } else x) (List.map (fun x => if x.deviceId = d.id then { x with isLocked := true } else x) s.remoteLocks) := hmem
      obtain ⟨rl1, hrl1, hv⟩ := List.mem_map.mp hmem
      by_cases hc : rl1.deviceId = d.id
      · rw [← hv, if_pos hc]
      · exfalso
        have : rl.deviceId = rl1.deviceId := by rw [← hv, if_neg hc]
        omega
    · have hfindDev2 : findDeviceBySerial { s with remoteLocks := List.map (fun x => if x.deviceId = d.id then { x with isLocked := false } else x) (List.map (fun x => if x.deviceId = d.id then { x with isLocked := true } else x) s.remoteLocks), devices := List.map (fun x => if x.id = d.id then { x with isLocked := false, isActive := false } else x) (List.map (fun x => if x.id = d.id then { x with isLocked := true } else x) s.devices) } serial = some { d with isLocked := false, isActive := false } := by
        unfold findDeviceBySerial at hfind ⊢
        show (List.map (fun x => if x.id = d.id then { x with isLocked := false, isActive := false } else x) (List.map (fun x => if x.id = d.id then { x with isLocked := true } else x) s.devices)).find? (fun dd => dd.serialNumber == serial) = _
        rw [find?_map_invariant _ _ _ (by intro x; split <;> rfl),
          find?_map_invariant _ _ _ (by intro x; split <;> rfl), hfind]
        simp
      have hfr2 : findRemoteLock { s with remoteLocks := List.map (fun x => if x.deviceId = d.id then { x with isLocked := false } else x) (List.map (fun x => if x.deviceId = d.id then { x with isLocked := true } else x) s.remoteLocks), devices := List.map (fun x => if x.id = d.id then { x with isLocked := false, isActive := false } else x) (List.map (fun x => if x.id = d.id then { x with isLocked := true } else x) s.devices) } d.id = some { rlf with isLocked := false } := by
        unfold findRemoteLock
        show (List.map (fun x => if x.deviceId = d.id then { x with isLocked := false } else x) (List.map (fun x => if x.deviceId = d.id then { x with isLocked := true } else x) s.remoteLocks)).find? (fun rl => rl.deviceId == d.id) = _
        rw [find?_map_invariant _ _ _ (by intro x; split <;> rfl),
          find?_map_invariant _ _ _ (by intro x; split <;> rfl), hrlf]
        simp [hrlfp]
      unfold checkRemoteLock
      rw [if_neg hbeq, hfindDev2]
      dsimp only
      rw [hfr2]

theorem remoteLock_set_check_unlock_cycle_witness :
    ("TV1" : String) ≠ "" ∧ findDeviceBySerial storeTV1 "TV1" = some tv1Device ∧
    (∃ rl ∈ storeTV1.remoteLocks, rl.deviceId = tv1Device.id) ∧
    (∃ s1, setRemoteLock "TV1" true storeTV1 = (s1, Except.ok true) ∧
      checkRemoteLock "TV1" s1 = (s1, Except.ok true) ∧
      ∃ s2, unlockDevice "TV1" s1 = (s2, Except.ok ()) ∧
        (∀ dd ∈ s2.devices, dd.id = tv1Device.id → dd.isActive = false ∧ dd.isLocked = false) ∧
        (∀ rl ∈ s2.remoteLocks, rl.deviceId = tv1Device.id → rl.isLocked = false) ∧
        checkRemoteLock "TV1" s2 = (s2, Except.ok false)) :=
  ⟨by decide, by decide, by decide,
   remoteLock_set_check_unlock_cycle "TV1" storeTV1 tv1Device (by decide) (by decide)
     (by decide)⟩

lemma deviceCodes_map_invariant (s : Store) (did : Nat) (g : ActivationCode → ActivationCode)
    (hdev : ∀ a, (g a).deviceId = a.deviceId) :
    deviceCodes { s with activationCodes := s.activationCodes.map g } did
      = (deviceCodes s did).map g := by
  unfold deviceCodes
  show (s.activationCodes.map g).filter (fun a => a.deviceId == did) = _
  rw [List.filter_map]
  have hfun : ((fun a : ActivationCode => a.deviceId == did) ∘ g)
      = (fun a : ActivationCode => a.deviceId == did) :=
    funext (fun a => by simp [Function.comp, hdev])
  rw [hfun]

lemma codeForTerm_map (codes : List ActivationCode) (g : ActivationCode → ActivationCode)
    (hterm : ∀ a, (g a).termNumber = a.termNumber)
    (hcode : ∀ a, (g a).code = a.code) (t : Int) :
    codeForTerm (codes.map g) t = codeForTerm codes t := by
  unfold codeForTerm
  rw [← List.map_reverse, find?_map_invariant _ _ _ (fun x => by rw [hterm])]
  cases h : codes.reverse.find? (fun a => a.termNumber == t) with
  | none => rfl
  | some a => simp [hcode]

lemma termNumbersSorted_map (codes : List ActivationCode) (g : ActivationCode → ActivationCode)
    (hterm : ∀ a, (g a).termNumber = a.termNumber) :
    termNumbersSorted (codes.map g) = termNumbersSorted codes := by
  unfold termNumbersSorted
  rw [List.map_map]
  have hfun : ((fun a : ActivationCode => a.termNumber) ∘ g)
      = (fun a : ActivationCode => a.termNumber) := funext (fun a => hterm a)
  rw [hfun]

lemma assembleTerms_zip (s : Store) (did : Nat) :
    assembleTerms s did =
      ((lockDatesSorted (deviceLockDates s did)).zip
        (termNumbersSorted (deviceCodes s did))).map
        (fun p => ⟨p.2, formatDate p.1, codeForTerm (deviceCodes s did) p.2⟩) := rfl

lemma assembleTerms_map_invariant (s : Store) (did : Nat)
    (g : ActivationCode → ActivationCode)
    (hdev : ∀ a, (g a).deviceId = a.deviceId)
    (hterm : ∀ a, (g a).termNumber = a.termNumber)
    (hcode : ∀ a, (g a).code = a.code) :
    assembleTerms { s with activationCodes := s.activationCodes.map g } did
      = assembleTerms s did := by
  rw [assembleTerms_zip, assembleTerms_zip]
  have hdl : deviceLockDates { s with activationCodes := s.activationCodes.map g } did
      = deviceLockDates s did := rfl
  rw [hdl, deviceCodes_map_invariant s did g hdev, termNumbersSorted_map _ g hterm]
  have hcft : ∀ t : Int, codeForTerm ((deviceCodes s did).map g) t
      = codeForTerm (deviceCodes s did) t := codeForTerm_map _ g hterm hcode
  simp only [hcft]

lemma assembleTerms_spec (s : Store) (did : Nat)
    (hnodup : ((deviceCodes s did).map (fun a => a.termNumber)).Nodup)
    (hlen : (deviceCodes s did).length = (deviceLockDates s did).length) :
    (assembleTerms s did).length = (deviceCodes s did).length ∧
    List.Sorted (fun a b => a ≤ b) ((assembleTerms s did).map (fun t => t.term)) ∧
    ((assembleTerms s did).map (fun t => t.term)).Perm
      ((deviceCodes s did).map (fun a => a.termNumber)) ∧
    (∃ ds : List Int, ds.Perm ((deviceLockDates s did).map (fun r => r.lockDate)) ∧
      List.Sorted (fun a b => a ≤ b) ds ∧
      (assembleTerms s did).map (fun t => t.lockDate) = ds.map formatDate) ∧
    (∀ t ∈ assembleTerms s did, ∃ a ∈ deviceCodes s did,
      a.termNumber = t.term ∧ a.code = t.activationCode) := by
  have hdedup : ((deviceCodes s did).map (fun a => a.termNumber)).dedup
      = (deviceCodes s did).map (fun a => a.termNumber) := List.dedup_eq_self.mpr hnodup
  have hlt : (termNumbersSorted (deviceCodes s did)).length
      = (deviceCodes s did).length := by
    unfold termNumbersSorted
    rw [(List.perm_insertionSort _ _).length_eq, hdedup, List.length_map]
  have hld : (lockDatesSorted (deviceLockDates s did)).length
      = (deviceCodes s did).length := by
    unfold lockDatesSorted
    rw [(List.perm_insertionSort _ _).length_eq, List.length_map, hlen]
  have hmapterm : (assembleTerms s did).map (fun t => t.term)
      = termNumbersSorted (deviceCodes s did) := by
    rw [assembleTerms_zip, List.map_map]
    have hfun : ((fun t : TermWithLockDateAndCode => t.term) ∘
        (fun p : Int × Int =>
          (⟨p.2, formatDate p.1, codeForTerm (deviceCodes s did) p.2⟩ :
            TermWithLockDateAndCode))) = Prod.snd := funext (fun p => rfl)
    rw [hfun, List.map_snd_zip]
    rw [hlt, hld]
  have hmapdate : (assembleTerms s did).map (fun t => t.lockDate)
      = (lockDatesSorted (deviceLockDates s did)).map formatDate := by
    rw [assembleTerms_zip, List.map_map]
    have hfun : ((fun t : TermWithLockDateAndCode => t.lockDate) ∘
        (fun p : Int × Int =>
          (⟨p.2, formatDate p.1, codeForTerm (deviceCodes s did) p.2⟩ :
            TermWithLockDateAndCode))) = (formatDate ∘ Prod.fst) := funext (fun p => rfl)
    rw [hfun, ← List.map_map, List.map_fst_zip]
    rw [hlt, hld]
  refine ⟨?_, ?_, ?_, ?_, ?_⟩
  · rw [← List.length_map (assembleTerms s did) (fun t => t.term), hmapterm, hlt]
  · rw [hmapterm]
    unfold termNumbersSorted
    exact List.sorted_insertionSort _ _
  · rw [hmapterm]
    unfold termNumbersSorted
    exact (List.perm_insertionSort _ _).trans (List.Perm.of_eq hdedup)
  · refine ⟨lockDatesSorted (deviceLockDates s did), ?_, ?_, hmapdate⟩
    · unfold lockDatesSorted
      exact List.perm_insertionSort _ _
    · unfold lockDatesSorted
      exact List.sorted_insertionSort _ _
  · intro t ht
    rw [assembleTerms_zip] at ht
    obtain ⟨p, hp, hF⟩ := List.mem_map.mp ht
    have hp2 : p.2 ∈ termNumbersSorted (deviceCodes s did) := (List.of_mem_zip hp).2
    have hpt : p.2 ∈ (deviceCodes s did).map (fun a => a.termNumber) := by
      have hmem := (List.perm_insertionSort (fun a b => a ≤ b)
        (((deviceCodes s did).map (fun a => a.termNumber)).dedup)).mem_iff.mp hp2
      exact List.mem_dedup.mp hmem
    obtain ⟨a1, ha1, hta⟩ := List.mem_map.mp hpt
    have hccsome : ((deviceCodes s did).reverse.find?
        (fun a => a.termNumber == p.2)).isSome :=
      List.find?_isSome.mpr ⟨a1, List.mem_reverse.mpr ha1, by simp [hta]⟩
    obtain ⟨a0, ha0⟩ := Option.isSome_iff_exists.mp hccsome
    have ha0mem : a0 ∈ deviceCodes s did :=
      List.mem_reverse.mp (List.mem_of_find?_eq_some ha0)
    have ha0t : a0.termNumber = p.2 := by simpa using List.find?_some ha0
    refine ⟨a0, ha0mem, ?_, ?_⟩
    · rw [ha0t, ← hF]
    · rw [← hF]
      show a0.code = codeForTerm (deviceCodes s did) p.2
      unfold codeForTerm
      rw [ha0]

/-- Claim C9: a successful activation returns the full set of
(term, lock date, activation code) tuples of the device, ordered by term
number, pairing the Nth smallest term number with the Nth smallest lock
date, each term carrying that term's activation code.  The hypotheses are
the post-registration shape of the tables: distinct term numbers and one
lock-date row per code row. -/
theorem activation_response_positional_pairing (c : String) (s : Store)
    (ac : ActivationCode)
    (hfind : findUnusedCode s c = some ac)
    (hnodup : ((deviceCodes s ac.deviceId).map (fun a => a.termNumber)).Nodup)
    (hlen : (deviceCodes s ac.deviceId).length = (deviceLockDates s ac.deviceId).length) :
    ∃ s1, activateDevice c s = (s1, Except.ok (assembleTerms s ac.deviceId)) ∧
      (assembleTerms s ac.deviceId).length = (deviceCodes s ac.deviceId).length ∧
      List.Sorted (fun a b => a ≤ b)
        ((assembleTerms s ac.deviceId).map (fun t => t.term)) ∧
      ((assembleTerms s ac.deviceId).map (fun t => t.term)).Perm
        ((deviceCodes s ac.deviceId).map (fun a => a.termNumber)) ∧
      (∃ ds : List Int,
        ds.Perm ((deviceLockDates s ac.deviceId).map (fun r => r.lockDate)) ∧
        List.Sorted (fun a b => a ≤ b) ds ∧
        (assembleTerms s ac.deviceId).map (fun t => t.lockDate) = ds.map formatDate) ∧
      (∀ t ∈ assembleTerms s ac.deviceId, ∃ a ∈ deviceCodes s ac.deviceId,
        a.termNumber = t.term ∧ a.code = t.activationCode) := by
  obtain ⟨h1, h2, h3, h4, h5⟩ := assembleTerms_spec s ac.deviceId hnodup hlen
  have hinv : assembleTerms { s with activationCodes := s.activationCodes.map (fun a => if a.id = ac.id then { a with isUsed := true } else a) } ac.deviceId = assembleTerms s ac.deviceId :=
    assembleTerms_map_invariant s ac.deviceId _
      (fun a => by split <;> rfl) (fun a => by split <;> rfl) (fun a => by split <;> rfl)
  have hinv2 : assembleTerms { s with devices := List.map (fun d => if d.id = ac.deviceId then { d with isActive := true } else d) s.devices, activationCodes := List.map (fun a => if a.id = ac.id then { a with isUsed := true } else a) s.activationCodes } ac.deviceId = assembleTerms s ac.deviceId := hinv
  have heqq : activateDevice c s = ({ s with devices := List.map (fun d => if d.id = ac.deviceId then { d with isActive := true } else d) s.devices, activationCodes := List.map (fun a => if a.id = ac.id then { a with isUsed := true } else a) s.activationCodes }, Except.ok (assembleTerms s ac.deviceId)) := by
    unfold activateDevice activateDeviceF
    rw [hfind]
    simp only [noActivateFailures, Bool.false_eq_true, if_false]
    rw [hinv2]
  exact ⟨_, heqq, h1, h2, h3, h4, h5⟩

theorem activation_response_positional_pairing_witness :
    findUnusedCode storeTV1 "AC1" = some tv1Code ∧
    ((deviceCodes storeTV1 tv1Code.deviceId).map (fun a => a.termNumber)).Nodup ∧
    (deviceCodes storeTV1 tv1Code.deviceId).length
      = (deviceLockDates storeTV1 tv1Code.deviceId).length ∧
    (∃ s1, activateDevice "AC1" storeTV1 =
        (s1, Except.ok (assembleTerms storeTV1 tv1Code.deviceId)) ∧
      (assembleTerms storeTV1 tv1Code.deviceId).length
        = (deviceCodes storeTV1 tv1Code.deviceId).length ∧
      List.Sorted (fun a b => a ≤ b)
        ((assembleTerms storeTV1 tv1Code.deviceId).map (fun t => t.term)) ∧
      ((assembleTerms storeTV1 tv1Code.deviceId).map (fun t => t.term)).Perm
        ((deviceCodes storeTV1 tv1Code.deviceId).map (fun a => a.termNumber)) ∧
      (∃ ds : List Int,
        ds.Perm ((deviceLockDates storeTV1 tv1Code.deviceId).map (fun r => r.lockDate)) ∧
        List.Sorted (fun a b => a ≤ b) ds ∧
        (assembleTerms storeTV1 tv1Code.deviceId).map (fun t => t.lockDate)
          = ds.map formatDate) ∧
      (∀ t ∈ assembleTerms storeTV1 tv1Code.deviceId,
        ∃ a ∈ deviceCodes storeTV1 tv1Code.deviceId,
          a.termNumber = t.term ∧ a.code = t.activationCode)) :=
  ⟨by decide, by decide, by decide,
   activation_response_positional_pairing "AC1" storeTV1 tv1Code (by decide) (by decide)
     (by decide)⟩

/-- Claim C6 counterexample: a registration during which the final
remote-lock insert fails — a store write error, which the handler only
logs — still reports success, so not every store error surfaces as a
request failure. -/
theorem register_success_despite_remoteLock_insert_error :
    remoteLockInsertFails.remoteLockInsert = true ∧
    resultIsOk (registerDeviceF remoteLockInsertFails
      ⟨"TV1", "C", "P", 1, "2024-01-01", 7⟩ emptyStore).2 = true := by
  decide

lemma registerLoop_ok_no_failures (f : RegisterFailures) (deviceId : Nat)
    (lds : List Int) :
    ∀ (fuel : Nat) (i0 : Int) (s : Store) (acc : List TermWithLockDateAndCode)
      (s2 : Store) (terms : List TermWithLockDateAndCode),
      registerLoop f deviceId lds fuel i0 s acc = (s2, terms, none) →
      ∀ i : Int, i0 ≤ i → i < i0 + fuel →
        f.codeInsert i = false ∧ f.lockDateInsert i = false := by
  intro fuel
  induction fuel with
  | zero => intro i0 s acc s2 terms heq i hge hlt; omega
  | succ m ih =>
    intro i0 s acc s2 terms heq i hge hlt
    simp only [registerLoop] at heq
    by_cases hci : f.codeInsert i0 = true
    · rw [if_pos hci] at heq
      simp at heq
    rw [if_neg hci] at heq
    cases hld : lds[(i0 - 1).toNat]? with
    | none =>
      rw [hld] at heq
      simp at heq
    | some ld =>
      rw [hld] at heq
      dsimp only at heq
      by_cases hdi : f.lockDateInsert i0 = true
      · rw [if_pos hdi] at heq
        simp at heq
      rw [if_neg hdi] at heq
      by_cases hii : i = i0
      · subst hii
        exact ⟨Bool.eq_false_iff.mpr hci, Bool.eq_false_iff.mpr hdi⟩
      · exact ih (i0 + 1) _ _ s2 terms heq i (by omega) (by omega)

/-- Claim C6 amended: a store error on the primary write of each operation
surfaces as a request failure (the device, activation-code and lock-date
inserts at registration; the mark-used update at activation; the
remote-lock update at set-remote-lock; the device update at unlock) — but
the four secondary writes (registration's remote-lock insert, activation's
device-activate update, set-remote-lock's device mirror update and
unlock's remote-lock update) are only logged and the operation still
reports success. -/
theorem store_errors_surface_on_primary_writes :
    (∀ (f : RegisterFailures) (req : RegisterDeviceRequest) (s s2 : Store)
      (out : RegisterOk),
      registerDeviceF f req s = (s2, Except.ok out) →
      f.deviceInsert = false ∧
      ∀ i : Int, 1 ≤ i → i ≤ req.emiTerm →
        f.codeInsert i = false ∧ f.lockDateInsert i = false) ∧
    (∀ (f : ActivateFailures) (c : String) (s s2 : Store)
      (terms : List TermWithLockDateAndCode),
      activateDeviceF f c s = (s2, Except.ok terms) → f.markUsed = false) ∧
    (∀ (f : SetLockFailures) (serial : String) (locked : Bool) (s s2 : Store) (b : Bool),
      setRemoteLockF f serial locked s = (s2, Except.ok b) →
      f.remoteLockUpdate = false) ∧
    (∀ (f : UnlockFailures) (serial : String) (s s2 : Store),
      unlockDeviceF f serial s = (s2, Except.ok ()) → f.deviceUpdate = false) := by
  refine ⟨?_, ?_, ?_, ?_⟩
  · intro f req s s2 out heq
    unfold registerDeviceF at heq
    by_cases hdur : req.termDuration ≠ 7 ∧ req.termDuration ≠ 15 ∧ req.termDuration ≠ 30
    · rw [if_pos hdur] at heq
      simp at heq
    rw [if_neg hdur] at heq
    cases hz : parseDate req.emiStartDate with
    | none =>
      rw [hz] at heq
      simp at heq
    | some z =>
      rw [hz] at heq
      cases hfd : findDeviceBySerial s req.serialNumber with
      | some d =>
        rw [hfd] at heq
        simp at heq
      | none =>
        rw [hfd] at heq
        dsimp only at heq
        by_cases hdev : f.deviceInsert = true
        · rw [if_pos hdev] at heq
          simp at heq
        rw [if_neg hdev] at heq
        refine ⟨Bool.eq_false_iff.mpr hdev, ?_⟩
        split at heq
        · simp at heq
        · rename_i s3 terms3 hloopEq
          intro i h1i hiN
          exact registerLoop_ok_no_failures f s.nextId _ req.emiTerm.toNat 1 _ []
            s3 terms3 hloopEq i h1i (by omega)
  · intro f c s s2 terms heq
    unfold activateDeviceF at heq
    cases hf : findUnusedCode s c with
    | none =>
      rw [hf] at heq
      simp at heq
    | some ac =>
      rw [hf] at heq
      dsimp only at heq
      by_cases hm : f.markUsed = true
      · rw [if_pos hm] at heq
        simp at heq
      · exact Bool.eq_false_iff.mpr hm
  · intro f serial locked s s2 b heq
    unfold setRemoteLockF at heq
    cases hf : findDeviceBySerial s serial with
    | none =>
      rw [hf] at heq
      simp at heq
    | some d =>
      rw [hf] at heq
      dsimp only at heq
      by_cases hm : f.remoteLockUpdate = true
      · rw [if_pos hm] at heq
        simp at heq
      · exact Bool.eq_false_iff.mpr hm
  · intro f serial s s2 heq
    unfold unlockDeviceF at heq
    cases hf : findDeviceBySerial s serial with
    | none =>
      rw [hf] at heq
      simp at heq
    | some d =>
      rw [hf] at heq
      dsimp only at heq
      by_cases hm : f.deviceUpdate = true
      · rw [if_pos hm] at heq
        simp at heq
      · exact Bool.eq_false_iff.mpr hm

theorem store_errors_surface_on_primary_writes_witness :
    (noRegisterFailures.deviceInsert = false ∧
      ∀ i : Int, 1 ≤ i → i ≤ req1.emiTerm →
        noRegisterFailures.codeInsert i = false ∧
        noRegisterFailures.lockDateInsert i = false) ∧
    noActivateFailures.markUsed = false ∧
    noSetLockFailures.remoteLockUpdate = false ∧
    noUnlockFailures.deviceUpdate = false :=
  ⟨store_errors_surface_on_primary_writes.1 noRegisterFailures req1 emptyStore
      (registerDevice req1 emptyStore).1 ⟨0, [⟨1, "2024-01-08", "AC1"⟩]⟩ rfl,
   store_errors_surface_on_primary_writes.2.1 noActivateFailures "AC1" storeTV1
      (activateDevice "AC1" storeTV1).1
      (assembleTerms (activateDevice "AC1" storeTV1).1 0) rfl,
   store_errors_surface_on_primary_writes.2.2.1 noSetLockFailures "TV1" true storeTV1
      (setRemoteLock "TV1" true storeTV1).1 true rfl,
   store_errors_surface_on_primary_writes.2.2.2 noUnlockFailures "TV1" storeTV1
      (unlockDevice "TV1" storeTV1).1 rfl⟩

end TVLocker
